import Mathlib

/-!
Shallow embedding of the `net` HTTP server core (src/models/http.rs,
src/router.rs, src/httpserver.rs) and proofs about its message parser,
route matcher and dispatch table.

Rust strings are modelled as Lean `String`s (operating on their character
lists; all inputs of interest are ASCII, where byte-level and char-level
operations agree).  Rust `HashMap`s are modelled as association lists with
insert-replaces semantics; the claims proved below are insensitive to
iteration order.  Rust panics (`unwrap` failures) are modelled as the
`Except.error` branch of the embedded functions.
-/

deriving instance DecidableEq for Except

namespace Net

/-- Drop leading characters satisfying `p` and trailing characters
satisfying `p` from a character list. -/
def trimList (p : Char → Bool) (l : List Char) : List Char :=
  ((l.dropWhile p).reverse.dropWhile p).reverse

/-- Models Rust `str::trim_matches(c)`: strip all leading and trailing
occurrences of the character `c`. -/
def trimMatches (c : Char) (s : String) : String :=
  String.mk (trimList (· = c) s.toList)

/-- Whitespace test used by Rust `str::trim` / `trim_end` (the ASCII part of
Unicode `White_Space`; all inputs in this development are ASCII). -/
def isRustWhitespace (c : Char) : Bool :=
  c = ' ' || c = '\t' || c = '\n' || c = '\x0b' || c = '\x0c' || c = '\r'

/-- Models Rust `str::trim_end`. -/
def trimEnd (s : String) : String :=
  String.mk (s.toList.reverse.dropWhile isRustWhitespace).reverse

/-- Models Rust `str::trim`. -/
def trimBoth (s : String) : String :=
  String.mk (trimList isRustWhitespace s.toList)

/-- Auxiliary for `splitChar`: `acc` is the current segment, reversed. -/
def splitCharAux (c : Char) : List Char → List Char → List String
  | [], acc => [String.mk acc.reverse]
  | x :: rest, acc =>
    if x = c then String.mk acc.reverse :: splitCharAux c rest []
    else splitCharAux c rest (x :: acc)

/-- Models Rust `str::split(c)` with a character separator: segments between
occurrences of `c`, empty segments kept, `""` yielding `[""]`. -/
def splitChar (c : Char) (s : String) : List String :=
  splitCharAux c s.toList []

/-- Auxiliary for `splitOnce` on character lists. -/
def splitOnceList (c : Char) : List Char → Option (List Char × List Char)
  | [] => none
  | x :: rest =>
    if x = c then some ([], rest)
    else (splitOnceList c rest).map (fun p => (x :: p.1, p.2))

/-- Models Rust `str::split_once(c)`: split at the first occurrence of `c`,
or `none` when `c` does not occur. -/
def splitOnce (c : Char) (s : String) : Option (String × String) :=
  (splitOnceList c s.toList).map (fun p => (String.mk p.1, String.mk p.2))

/-- Models Rust `str::to_uppercase` (ASCII range; `str::to_uppercase` agrees
with ASCII uppercasing on ASCII strings, and every string this program
compares against is ASCII). -/
def toUppercase (s : String) : String :=
  String.mk (s.toList.map Char.toUpper)

/-- Models Rust `str::to_ascii_lowercase`. -/
def toAsciiLowercase (s : String) : String :=
  String.mk (s.toList.map Char.toLower)

/-- Models Rust `str::starts_with(c)` with a character argument. -/
def startsWithChar (s : String) (c : Char) : Bool :=
  match s.toList with
  | [] => false
  | x :: _ => x = c

/-- Models Rust `str::ends_with(c)` with a character argument. -/
def endsWithChar (s : String) (c : Char) : Bool :=
  match s.toList.getLast? with
  | none => false
  | some x => x = c

/-- Models `HashMap::insert` on an association list with unique keys:
replace the value of an existing key, otherwise append the new entry. -/
def insertAssoc {α β : Type} [DecidableEq α] : List (α × β) → α → β → List (α × β)
  | [], k, v => [(k, v)]
  | (k', v') :: rest, k, v =>
    if k' = k then (k, v) :: rest else (k', v') :: insertAssoc rest k v

/-- Models `HashMap::get` on an association list. -/
def lookupAssoc {α β : Type} [DecidableEq α] : List (α × β) → α → Option β
  | [], _ => none
  | (k', v') :: rest, k => if k' = k then some v' else lookupAssoc rest k

/-- The `HTTPMethod` enum of src/models/http.rs. -/
inductive HTTPMethod
  | GET
  | POST
  | PATCH
  | DELETE
deriving DecidableEq

/-- Models `impl FromStr for HTTPMethod` (http.rs:42-53): uppercase the
token and compare against the closed method set; anything else is the
`Err(format!("Invalid HTTP method: {}", s))` branch. -/
def HTTPMethod.fromStr (s : String) : Except String HTTPMethod :=
  let u := toUppercase s
  if u = "GET" then .ok .GET
  else if u = "POST" then .ok .POST
  else if u = "PATCH" then .ok .PATCH
  else if u = "DELETE" then .ok .DELETE
  else .error ("Invalid HTTP method: " ++ s)

/-- The `HTTPVersion` enum of src/models/http.rs. -/
inductive HTTPVersion
  | HTTP1_1
  | HTTP2
  | HTTP3
deriving DecidableEq

/-- Models `impl FromStr for HTTPVersion` (http.rs:61-71): uppercase, trim,
compare against the closed version set. -/
def HTTPVersion.fromStr (s : String) : Except String HTTPVersion :=
  let u := trimBoth (toUppercase s)
  if u = "HTTP/1.1" then .ok .HTTP1_1
  else if u = "HTTP/2" then .ok .HTTP2
  else if u = "HTTP/3" then .ok .HTTP3
  else .error ("Invalid HTTP version: " ++ s)

/-- The `HTTPHeaderType` enum of src/models/http.rs (closed set of
well-known header names plus the `Other` escape variant). -/
inductive HTTPHeaderType
  | Accept
  | AcceptCharset
  | AcceptEncoding
  | AcceptLanguage
  | Authorization
  | ProxyAuthorization
  | UserAgent
  | Referer
  | Origin
  | Host
  | ContentType
  | ContentLength
  | ContentEncoding
  | ContentLanguage
  | ContentLocation
  | ContentDisposition
  | ContentRange
  | CacheControl
  | Pragma
  | Expires
  | ETag
  | IfMatch
  | IfNoneMatch
  | IfModifiedSince
  | IfUnmodifiedSince
  | IfRange
  | LastModified
  | Age
  | Vary
  | Connection
  | KeepAlive
  | TransferEncoding
  | Upgrade
  | Via
  | Cookie
  | SetCookie
  | Location
  | Range
  | AcceptRanges
  | WWWAuthenticate
  | ProxyAuthenticate
  | StrictTransportSecurity
  | ContentSecurityPolicy
  | ContentSecurityPolicyReportOnly
  | XContentTypeOptions
  | XFrameOptions
  | XXSSProtection
  | ReferrerPolicy
  | PermissionsPolicy
  | ExpectCT
  | AccessControlAllowOrigin
  | AccessControlAllowMethods
  | AccessControlAllowHeaders
  | AccessControlAllowCredentials
  | AccessControlExposeHeaders
  | AccessControlMaxAge
  | AccessControlRequestMethod
  | AccessControlRequestHeaders
  | SecFetchSite
  | SecFetchMode
  | SecFetchDest
  | SecFetchUser
  | SecCHUA
  | SecCHUAMobile
  | SecCHUAPlatform
  | AcceptCH
  | Server
  | Date
  | Allow
  | RetryAfter
  | Warning
  | TE
  | SecWebSocketKey
  | SecWebSocketAccept
  | SecWebSocketVersion
  | SecWebSocketProtocol
  | Forwarded
  | XForwardedFor
  | XForwardedHost
  | XForwardedProto
  | XRealIP
  | Expect
  | DNT
  | Other (raw : String)

/-- Injective code used to define decidable equality on `HTTPHeaderType`
without a quadratic derived instance. -/
def HTTPHeaderType.encode : HTTPHeaderType → Nat × Option String
  | .Accept => (0, none)
  | .AcceptCharset => (1, none)
  | .AcceptEncoding => (2, none)
  | .AcceptLanguage => (3, none)
  | .Authorization => (4, none)
  | .ProxyAuthorization => (5, none)
  | .UserAgent => (6, none)
  | .Referer => (7, none)
  | .Origin => (8, none)
  | .Host => (9, none)
  | .ContentType => (10, none)
  | .ContentLength => (11, none)
  | .ContentEncoding => (12, none)
  | .ContentLanguage => (13, none)
  | .ContentLocation => (14, none)
  | .ContentDisposition => (15, none)
  | .ContentRange => (16, none)
  | .CacheControl => (17, none)
  | .Pragma => (18, none)
  | .Expires => (19, none)
  | .ETag => (20, none)
  | .IfMatch => (21, none)
  | .IfNoneMatch => (22, none)
  | .IfModifiedSince => (23, none)
  | .IfUnmodifiedSince => (24, none)
  | .IfRange => (25, none)
  | .LastModified => (26, none)
  | .Age => (27, none)
  | .Vary => (28, none)
  | .Connection => (29, none)
  | .KeepAlive => (30, none)
  | .TransferEncoding => (31, none)
  | .Upgrade => (32, none)
  | .Via => (33, none)
  | .Cookie => (34, none)
  | .SetCookie => (35, none)
  | .Location => (36, none)
  | .Range => (37, none)
  | .AcceptRanges => (38, none)
  | .WWWAuthenticate => (39, none)
  | .ProxyAuthenticate => (40, none)
  | .StrictTransportSecurity => (41, none)
  | .ContentSecurityPolicy => (42, none)
  | .ContentSecurityPolicyReportOnly => (43, none)
  | .XContentTypeOptions => (44, none)
  | .XFrameOptions => (45, none)
  | .XXSSProtection => (46, none)
  | .ReferrerPolicy => (47, none)
  | .PermissionsPolicy => (48, none)
  | .ExpectCT => (49, none)
  | .AccessControlAllowOrigin => (50, none)
  | .AccessControlAllowMethods => (51, none)
  | .AccessControlAllowHeaders => (52, none)
  | .AccessControlAllowCredentials => (53, none)
  | .AccessControlExposeHeaders => (54, none)
  | .AccessControlMaxAge => (55, none)
  | .AccessControlRequestMethod => (56, none)
  | .AccessControlRequestHeaders => (57, none)
  | .SecFetchSite => (58, none)
  | .SecFetchMode => (59, none)
  | .SecFetchDest => (60, none)
  | .SecFetchUser => (61, none)
  | .SecCHUA => (62, none)
  | .SecCHUAMobile => (63, none)
  | .SecCHUAPlatform => (64, none)
  | .AcceptCH => (65, none)
  | .Server => (66, none)
  | .Date => (67, none)
  | .Allow => (68, none)
  | .RetryAfter => (69, none)
  | .Warning => (70, none)
  | .TE => (71, none)
  | .SecWebSocketKey => (72, none)
  | .SecWebSocketAccept => (73, none)
  | .SecWebSocketVersion => (74, none)
  | .SecWebSocketProtocol => (75, none)
  | .Forwarded => (76, none)
  | .XForwardedFor => (77, none)
  | .XForwardedHost => (78, none)
  | .XForwardedProto => (79, none)
  | .XRealIP => (80, none)
  | .Expect => (81, none)
  | .DNT => (82, none)
  | .Other s => (83, some s)

/-- Left inverse of `HTTPHeaderType.encode`. -/
def HTTPHeaderType.decode : Nat × Option String → HTTPHeaderType
  | (0, _) => .Accept
  | (1, _) => .AcceptCharset
  | (2, _) => .AcceptEncoding
  | (3, _) => .AcceptLanguage
  | (4, _) => .Authorization
  | (5, _) => .ProxyAuthorization
  | (6, _) => .UserAgent
  | (7, _) => .Referer
  | (8, _) => .Origin
  | (9, _) => .Host
  | (10, _) => .ContentType
  | (11, _) => .ContentLength
  | (12, _) => .ContentEncoding
  | (13, _) => .ContentLanguage
  | (14, _) => .ContentLocation
  | (15, _) => .ContentDisposition
  | (16, _) => .ContentRange
  | (17, _) => .CacheControl
  | (18, _) => .Pragma
  | (19, _) => .Expires
  | (20, _) => .ETag
  | (21, _) => .IfMatch
  | (22, _) => .IfNoneMatch
  | (23, _) => .IfModifiedSince
  | (24, _) => .IfUnmodifiedSince
  | (25, _) => .IfRange
  | (26, _) => .LastModified
  | (27, _) => .Age
  | (28, _) => .Vary
  | (29, _) => .Connection
  | (30, _) => .KeepAlive
  | (31, _) => .TransferEncoding
  | (32, _) => .Upgrade
  | (33, _) => .Via
  | (34, _) => .Cookie
  | (35, _) => .SetCookie
  | (36, _) => .Location
  | (37, _) => .Range
  | (38, _) => .AcceptRanges
  | (39, _) => .WWWAuthenticate
  | (40, _) => .ProxyAuthenticate
  | (41, _) => .StrictTransportSecurity
  | (42, _) => .ContentSecurityPolicy
  | (43, _) => .ContentSecurityPolicyReportOnly
  | (44, _) => .XContentTypeOptions
  | (45, _) => .XFrameOptions
  | (46, _) => .XXSSProtection
  | (47, _) => .ReferrerPolicy
  | (48, _) => .PermissionsPolicy
  | (49, _) => .ExpectCT
  | (50, _) => .AccessControlAllowOrigin
  | (51, _) => .AccessControlAllowMethods
  | (52, _) => .AccessControlAllowHeaders
  | (53, _) => .AccessControlAllowCredentials
  | (54, _) => .AccessControlExposeHeaders
  | (55, _) => .AccessControlMaxAge
  | (56, _) => .AccessControlRequestMethod
  | (57, _) => .AccessControlRequestHeaders
  | (58, _) => .SecFetchSite
  | (59, _) => .SecFetchMode
  | (60, _) => .SecFetchDest
  | (61, _) => .SecFetchUser
  | (62, _) => .SecCHUA
  | (63, _) => .SecCHUAMobile
  | (64, _) => .SecCHUAPlatform
  | (65, _) => .AcceptCH
  | (66, _) => .Server
  | (67, _) => .Date
  | (68, _) => .Allow
  | (69, _) => .RetryAfter
  | (70, _) => .Warning
  | (71, _) => .TE
  | (72, _) => .SecWebSocketKey
  | (73, _) => .SecWebSocketAccept
  | (74, _) => .SecWebSocketVersion
  | (75, _) => .SecWebSocketProtocol
  | (76, _) => .Forwarded
  | (77, _) => .XForwardedFor
  | (78, _) => .XForwardedHost
  | (79, _) => .XForwardedProto
  | (80, _) => .XRealIP
  | (81, _) => .Expect
  | (82, _) => .DNT
  | (_, some s) => .Other s
  | (_, none) => .Other ""

instance : DecidableEq HTTPHeaderType := fun a b =>
  if h : a.encode = b.encode then
    .isTrue (by
      have hr : ∀ x : HTTPHeaderType, HTTPHeaderType.decode x.encode = x := by
        intro x; cases x <;> rfl
      have hc := congrArg HTTPHeaderType.decode h
      rwa [hr, hr] at hc)
  else
    .isFalse (fun hh => h (hh ▸ rfl))

/-- Models `impl FromStr for HTTPHeaderType` (http.rs:331-456): lowercase
the name (ASCII) and look it up in the known-name table; an unrecognized
name falls through to `Other` carrying the original, case-preserved string.
The Rust impl is total (its `Err` type is never produced), so the embedding
returns `HTTPHeaderType` directly. -/
def HTTPHeaderType.fromStr (s : String) : HTTPHeaderType :=
  let u := toAsciiLowercase s
  if u = "accept" then .Accept
  else if u = "accept-charset" then .AcceptCharset
  else if u = "accept-encoding" then .AcceptEncoding
  else if u = "accept-language" then .AcceptLanguage
  else if u = "authorization" then .Authorization
  else if u = "proxy-authorization" then .ProxyAuthorization
  else if u = "user-agent" then .UserAgent
  else if u = "referer" then .Referer
  else if u = "origin" then .Origin
  else if u = "host" then .Host
  else if u = "content-type" then .ContentType
  else if u = "content-length" then .ContentLength
  else if u = "content-encoding" then .ContentEncoding
  else if u = "content-language" then .ContentLanguage
  else if u = "content-location" then .ContentLocation
  else if u = "content-disposition" then .ContentDisposition
  else if u = "content-range" then .ContentRange
  else if u = "cache-control" then .CacheControl
  else if u = "pragma" then .Pragma
  else if u = "expires" then .Expires
  else if u = "etag" then .ETag
  else if u = "if-match" then .IfMatch
  else if u = "if-none-match" then .IfNoneMatch
  else if u = "if-modified-since" then .IfModifiedSince
  else if u = "if-unmodified-since" then .IfUnmodifiedSince
  else if u = "if-range" then .IfRange
  else if u = "last-modified" then .LastModified
  else if u = "age" then .Age
  else if u = "vary" then .Vary
  else if u = "connection" then .Connection
  else if u = "keep-alive" then .KeepAlive
  else if u = "transfer-encoding" then .TransferEncoding
  else if u = "upgrade" then .Upgrade
  else if u = "via" then .Via
  else if u = "cookie" then .Cookie
  else if u = "set-cookie" then .SetCookie
  else if u = "location" then .Location
  else if u = "range" then .Range
  else if u = "accept-ranges" then .AcceptRanges
  else if u = "www-authenticate" then .WWWAuthenticate
  else if u = "proxy-authenticate" then .ProxyAuthenticate
  else if u = "strict-transport-security" then .StrictTransportSecurity
  else if u = "content-security-policy" then .ContentSecurityPolicy
  else if u = "content-security-policy-report-only" then .ContentSecurityPolicyReportOnly
  else if u = "x-content-type-options" then .XContentTypeOptions
  else if u = "x-frame-options" then .XFrameOptions
  else if u = "x-xss-protection" then .XXSSProtection
  else if u = "referrer-policy" then .ReferrerPolicy
  else if u = "permissions-policy" then .PermissionsPolicy
  else if u = "expect-ct" then .ExpectCT
  else if u = "access-control-allow-origin" then .AccessControlAllowOrigin
  else if u = "access-control-allow-methods" then .AccessControlAllowMethods
  else if u = "access-control-allow-headers" then .AccessControlAllowHeaders
  else if u = "access-control-allow-credentials" then .AccessControlAllowCredentials
  else if u = "access-control-expose-headers" then .AccessControlExposeHeaders
  else if u = "access-control-max-age" then .AccessControlMaxAge
  else if u = "access-control-request-method" then .AccessControlRequestMethod
  else if u = "access-control-request-headers" then .AccessControlRequestHeaders
  else if u = "sec-fetch-site" then .SecFetchSite
  else if u = "sec-fetch-mode" then .SecFetchMode
  else if u = "sec-fetch-dest" then .SecFetchDest
  else if u = "sec-fetch-user" then .SecFetchUser
  else if u = "sec-ch-ua" then .SecCHUA
  else if u = "sec-ch-ua-mobile" then .SecCHUAMobile
  else if u = "sec-ch-ua-platform" then .SecCHUAPlatform
  else if u = "accept-ch" then .AcceptCH
  else if u = "server" then .Server
  else if u = "date" then .Date
  else if u = "allow" then .Allow
  else if u = "retry-after" then .RetryAfter
  else if u = "warning" then .Warning
  else if u = "te" then .TE
  else if u = "sec-websocket-key" then .SecWebSocketKey
  else if u = "sec-websocket-accept" then .SecWebSocketAccept
  else if u = "sec-websocket-version" then .SecWebSocketVersion
  else if u = "sec-websocket-protocol" then .SecWebSocketProtocol
  else if u = "forwarded" then .Forwarded
  else if u = "x-forwarded-for" then .XForwardedFor
  else if u = "x-forwarded-host" then .XForwardedHost
  else if u = "x-forwarded-proto" then .XForwardedProto
  else if u = "x-real-ip" then .XRealIP
  else if u = "expect" then .Expect
  else if u = "dnt" then .DNT
  else .Other s

/-- The `HTTPRequest` struct of src/models/http.rs: method, raw target
string, version, header mapping and optional body.  The Rust `HashMap` of
headers is modelled as an association list with unique keys. -/
structure HTTPRequest where
  method : HTTPMethod
  url : String
  version : HTTPVersion
  headers : List (HTTPHeaderType × String)
  body : Option String
deriving DecidableEq

/-- The `HTTPStatus` enum of src/models/http.rs. -/
inductive HTTPStatus
  | Continue
  | SwitchingProtocols
  | Processing
  | EarlyHints
  | Ok
  | Created
  | Accepted
  | NonAuthoritativeInformation
  | NoContent
  | ResetContent
  | PartialContent
  | MultiStatus
  | AlreadyReported
  | ImUsed
  | MultipleChoices
  | MovedPermanently
  | Found
  | SeeOther
  | NotModified
  | UseProxy
  | TemporaryRedirect
  | PermanentRedirect
  | BadRequest
  | Unauthorized
  | PaymentRequired
  | Forbidden
  | NotFound
  | MethodNotAllowed
  | NotAcceptable
  | ProxyAuthenticationRequired
  | RequestTimeout
  | Conflict
  | Gone
  | LengthRequired
  | PreconditionFailed
  | PayloadTooLarge
  | UriTooLong
  | UnsupportedMediaType
  | RangeNotSatisfiable
  | ExpectationFailed
  | ImATeapot
  | MisdirectedRequest
  | UnprocessableEntity
  | Locked
  | FailedDependency
  | TooEarly
  | UpgradeRequired
  | PreconditionRequired
  | TooManyRequests
  | RequestHeaderFieldsTooLarge
  | UnavailableForLegalReasons
  | InternalServerError
  | NotImplemented
  | BadGateway
  | ServiceUnavailable
  | GatewayTimeout
  | HttpVersionNotSupported
  | VariantAlsoNegotiates
  | InsufficientStorage
  | LoopDetected
  | NotExtended
  | NetworkAuthenticationRequired

/-- Models `HTTPStatus::code` (http.rs:730-804): the numeric status code. -/
def HTTPStatus.code : HTTPStatus → Nat
  | .Continue => 100
  | .SwitchingProtocols => 101
  | .Processing => 102
  | .EarlyHints => 103
  | .Ok => 200
  | .Created => 201
  | .Accepted => 202
  | .NonAuthoritativeInformation => 203
  | .NoContent => 204
  | .ResetContent => 205
  | .PartialContent => 206
  | .MultiStatus => 207
  | .AlreadyReported => 208
  | .ImUsed => 226
  | .MultipleChoices => 300
  | .MovedPermanently => 301
  | .Found => 302
  | .SeeOther => 303
  | .NotModified => 304
  | .UseProxy => 305
  | .TemporaryRedirect => 307
  | .PermanentRedirect => 308
  | .BadRequest => 400
  | .Unauthorized => 401
  | .PaymentRequired => 402
  | .Forbidden => 403
  | .NotFound => 404
  | .MethodNotAllowed => 405
  | .NotAcceptable => 406
  | .ProxyAuthenticationRequired => 407
  | .RequestTimeout => 408
  | .Conflict => 409
  | .Gone => 410
  | .LengthRequired => 411
  | .PreconditionFailed => 412
  | .PayloadTooLarge => 413
  | .UriTooLong => 414
  | .UnsupportedMediaType => 415
  | .RangeNotSatisfiable => 416
  | .ExpectationFailed => 417
  | .ImATeapot => 418
  | .MisdirectedRequest => 421
  | .UnprocessableEntity => 422
  | .Locked => 423
  | .FailedDependency => 424
  | .TooEarly => 425
  | .UpgradeRequired => 426
  | .PreconditionRequired => 428
  | .TooManyRequests => 429
  | .RequestHeaderFieldsTooLarge => 431
  | .UnavailableForLegalReasons => 451
  | .InternalServerError => 500
  | .NotImplemented => 501
  | .BadGateway => 502
  | .ServiceUnavailable => 503
  | .GatewayTimeout => 504
  | .HttpVersionNotSupported => 505
  | .VariantAlsoNegotiates => 506
  | .InsufficientStorage => 507
  | .LoopDetected => 508
  | .NotExtended => 510
  | .NetworkAuthenticationRequired => 511

/-- Left inverse of `HTTPStatus.code`, used only to define decidable
equality (the numeric codes are pairwise distinct). -/
def HTTPStatus.ofCode : Nat → HTTPStatus
  | 100 => .Continue
  | 101 => .SwitchingProtocols
  | 102 => .Processing
  | 103 => .EarlyHints
  | 200 => .Ok
  | 201 => .Created
  | 202 => .Accepted
  | 203 => .NonAuthoritativeInformation
  | 204 => .NoContent
  | 205 => .ResetContent
  | 206 => .PartialContent
  | 207 => .MultiStatus
  | 208 => .AlreadyReported
  | 226 => .ImUsed
  | 300 => .MultipleChoices
  | 301 => .MovedPermanently
  | 302 => .Found
  | 303 => .SeeOther
  | 304 => .NotModified
  | 305 => .UseProxy
  | 307 => .TemporaryRedirect
  | 308 => .PermanentRedirect
  | 400 => .BadRequest
  | 401 => .Unauthorized
  | 402 => .PaymentRequired
  | 403 => .Forbidden
  | 404 => .NotFound
  | 405 => .MethodNotAllowed
  | 406 => .NotAcceptable
  | 407 => .ProxyAuthenticationRequired
  | 408 => .RequestTimeout
  | 409 => .Conflict
  | 410 => .Gone
  | 411 => .LengthRequired
  | 412 => .PreconditionFailed
  | 413 => .PayloadTooLarge
  | 414 => .UriTooLong
  | 415 => .UnsupportedMediaType
  | 416 => .RangeNotSatisfiable
  | 417 => .ExpectationFailed
  | 418 => .ImATeapot
  | 421 => .MisdirectedRequest
  | 422 => .UnprocessableEntity
  | 423 => .Locked
  | 424 => .FailedDependency
  | 425 => .TooEarly
  | 426 => .UpgradeRequired
  | 428 => .PreconditionRequired
  | 429 => .TooManyRequests
  | 431 => .RequestHeaderFieldsTooLarge
  | 451 => .UnavailableForLegalReasons
  | 500 => .InternalServerError
  | 501 => .NotImplemented
  | 502 => .BadGateway
  | 503 => .ServiceUnavailable
  | 504 => .GatewayTimeout
  | 505 => .HttpVersionNotSupported
  | 506 => .VariantAlsoNegotiates
  | 507 => .InsufficientStorage
  | 508 => .LoopDetected
  | 510 => .NotExtended
  | 511 => .NetworkAuthenticationRequired
  | _ => .InternalServerError

instance : DecidableEq HTTPStatus := fun a b =>
  if h : a.code = b.code then
    .isTrue (by
      have hr : ∀ x : HTTPStatus, HTTPStatus.ofCode x.code = x := by
        intro x; cases x <;> rfl
      have hc := congrArg HTTPStatus.ofCode h
      rwa [hr, hr] at hc)
  else
    .isFalse (fun hh => h (hh ▸ rfl))


/-- The `HTTPResponse` struct of src/models/http.rs. -/
structure HTTPResponse where
  status : HTTPStatus
  headers : List (HTTPHeaderType × String)
  body : Option String
deriving DecidableEq

/-- Models `HTTPResponse::default` (http.rs:503-509): status 200 OK, no
headers, placeholder body `"hello world"`. -/
def HTTPResponse.default : HTTPResponse :=
  { status := .Ok, headers := [], body := some "hello world" }

/-- Models `HTTPResponse::error` (http.rs:511-517): the given status, no
headers, the message as body. -/
def HTTPResponse.error (status : HTTPStatus) (message : String) : HTTPResponse :=
  { status := status, headers := [], body := some message }

/-- Models one `BufRead::read_line` call on an in-memory buffer: the first
component is the line read, up to and including the first `'\n'` (or the
whole remaining input when it holds no `'\n'`), the second component the
unread rest.  A `([], _)` first component corresponds to `read_line`
returning `0` bytes. -/
def readLineL : List Char → List Char × List Char
  | [] => ([], [])
  | c :: rest =>
    if c = '\n' then ([c], rest)
    else
      let p := readLineL rest
      (c :: p.1, p.2)

/-- The request-line tokens of `parse_http_request` (http.rs:463-464):
first line of the input, trailing whitespace trimmed, split on single
spaces.  The split always yields at least one (possibly empty) token. -/
def requestLineTokens (data : String) : List String :=
  splitChar ' ' (trimEnd (String.mk (readLineL data.toList).1))

/-- Outcome of an `unwrap` failure (a Rust panic) inside
`parse_http_request`.  The source never returns an error value: on
malformed input it panics, aborting the surrounding task with no request
object.  `headIndexOutOfBounds i` is the `head[i]` indexing panic;
`invalidMethod` / `invalidVersion` carry the `FromStr` error message that
the failing `unwrap` reports. -/
inductive ParsePanic
  | headIndexOutOfBounds (i : Nat)
  | invalidMethod (msg : String)
  | invalidVersion (msg : String)
deriving DecidableEq

/-- Header-line handling of the parser loop body (http.rs:476-481): trim
the line's trailing whitespace, split at the first `':'`; a line without
`':'` is skipped, otherwise the header is inserted under its canonical
name (`HTTPHeaderType.fromStr` of the raw, untrimmed key) with the value
trimmed of surrounding whitespace. -/
def insertHeaderLine (headers : List (HTTPHeaderType × String)) (line : List Char) :
    List (HTTPHeaderType × String) :=
  match splitOnce ':' (trimEnd (String.mk line)) with
  | some (k, v) => insertAssoc headers (HTTPHeaderType.fromStr k) (trimBoth v)
  | none => headers

/-- The header loop of `parse_http_request` (http.rs:470-482) fused with
`read_line` into a single character scan (`lineAcc` is the current line so
far, reversed).  The loop stops at end of input (`read_line` returning 0)
or at a line that is empty after trimming; it returns the accumulated
header mapping and the unread rest of the input, which the source then
reads verbatim as the body. -/
def headerScan : List Char → List Char → List (HTTPHeaderType × String) →
    List (HTTPHeaderType × String) × List Char
  | [], lineAcc, headers =>
    let line := lineAcc.reverse
    if line = [] then (headers, [])
    else if trimBoth (String.mk line) = "" then (headers, [])
    else (insertHeaderLine headers line, [])
  | c :: rest, lineAcc, headers =>
    if c = '\n' then
      let line := (c :: lineAcc).reverse
      if trimBoth (String.mk line) = "" then (headers, rest)
      else headerScan rest [] (insertHeaderLine headers line)
    else headerScan rest (c :: lineAcc) headers

/-- Models `parse_http_request` (http.rs:459-493).  The source unwraps at
every step, so the Lean model returns `Except ParsePanic HTTPRequest`:
`.error` is a panic (no request object), `.ok` the parsed request.  The
evaluation order follows the source: `head[0]` is fed to
`HTTPMethod::from_str` (whose `unwrap` panics first on a bad token),
then `head[1]` and `head[2]` are indexed (panicking when fewer than three
tokens were produced), then the version is parsed, then headers and body
are consumed; an empty body normalizes to `none`. -/
def parse_http_request (data : String) : Except ParsePanic HTTPRequest :=
  let firstLine := readLineL data.toList
  match requestLineTokens data with
  | [] => .error (.headIndexOutOfBounds 0)
  | m0 :: headRest =>
    match HTTPMethod.fromStr m0 with
    | .error e => .error (.invalidMethod e)
    | .ok method =>
      match headRest with
      | [] => .error (.headIndexOutOfBounds 1)
      | url :: headRest2 =>
        match headRest2 with
        | [] => .error (.headIndexOutOfBounds 2)
        | v2 :: _ =>
          match HTTPVersion.fromStr v2 with
          | .error e => .error (.invalidVersion e)
          | .ok version =>
            let hb := headerScan firstLine.2 [] []
            let body := String.mk hb.2
            .ok { method := method, url := url, version := version,
                  headers := hb.1,
                  body := if body = "" then none else some body }

/-- Models `HTTPRequest::query_params` (http.rs:687-699): everything after
the first `'?'` of the target is split on `'&'`; each piece is split at
its first `'='` (pieces without `'='` are dropped) and collected into the
map, later duplicates overwriting earlier ones.  A target without `'?'`
gives the empty map. -/
def query_params (url : String) : List (String × String) :=
  match splitOnce '?' url with
  | some (_, query) =>
    ((splitChar '&' query).filterMap (fun pair => splitOnce '=' pair)).foldl
      (fun acc kv => insertAssoc acc kv.1 kv.2) []
  | none => []

/-- Path-to-segment preprocessing of `match_route` (http.rs:708-709,
router.rs:17-18): strip leading and trailing `'/'`, split on `'/'`. -/
def routeSegs (s : String) : List String :=
  splitChar '/' (trimMatches '/' s)

/-- The placeholder test of `match_route` (http.rs:718): a pattern segment
that starts with `'{'` and ends with `'}'`. -/
def isPlaceholder (seg : String) : Bool :=
  startsWithChar seg '{' && endsWithChar seg '}'

/-- The placeholder name `&pat[1..pat.len() - 1]` (http.rs:719): the
segment without its surrounding braces. -/
def placeholderName (seg : String) : String :=
  String.mk ((seg.toList.drop 1).dropLast)

/-- The segment loop of `match_route` (http.rs:717-724): a placeholder
pattern segment captures the path segment verbatim under the placeholder
name, any other pattern segment must equal the path segment exactly, and
the first mismatch aborts with `none`. -/
def matchSegs : List (String × String) → List (String × String) →
    Option (List (String × String))
  | [], params => some params
  | (pat, p) :: rest, params =>
    if isPlaceholder pat then
      matchSegs rest (insertAssoc params (placeholderName pat) p)
    else if pat ≠ p then none
    else matchSegs rest params

/-- Models `match_route` (http.rs:707-727; router.rs:16-36 is the same
function verbatim): strip `'/'` from both ends of pattern and path, split
both on `'/'`, fail on differing segment counts, then run the segment
loop. -/
def match_route (pattern path : String) : Option (List (String × String)) :=
  let patternParts := routeSegs pattern
  let pathParts := routeSegs path
  if patternParts.length ≠ pathParts.length then none
  else matchSegs (patternParts.zip pathParts) []

/-- Models `HTTPRequest::path_params` (http.rs:701-704): match the given
pattern against the target's path portion (everything before the first
`'?'`; `split('?').next()` always yields that first piece). -/
def HTTPRequest.path_params (req : HTTPRequest) (pattern : String) :
    Option (List (String × String)) :=
  let path :=
    match splitChar '?' req.url with
    | p :: _ => p
    | [] => req.url
  match_route pattern path

/-- The `HTTPRoute` key type of src/router.rs:38. -/
abbrev HTTPRoute := HTTPMethod × String

/-- The handler type of src/router.rs:39.  The Rust handler mutates the
response through `&mut`; the model takes the response and returns the
mutated one. -/
abbrev HTTPHandler := HTTPRequest → HTTPResponse → String → HTTPResponse

/-- The `Router` struct of src/router.rs:41-43.  The `HashMap` registry is
modelled as an association list with unique keys; the source's iteration
order over the map is arbitrary, and the list order stands in for one such
order (every property proved below is order-independent). -/
structure Router where
  routes : List (HTTPRoute × HTTPHandler)

/-- Models `Router::new` (router.rs:46-50). -/
def Router.new : Router := ⟨[]⟩

/-- Models `Router::bind` (router.rs:52-57): `HashMap::insert`, replacing
any handler already registered under the same key. -/
def Router.bind (r : Router) (route : HTTPRoute) (handler : HTTPHandler) : Router :=
  ⟨insertAssoc r.routes route handler⟩

/-- The entry loop of `Router::handle` (router.rs:59-66): find an entry
whose method equals the request's method and whose pattern matches the
request's path (`path_params(...).is_some()`), invoke its handler on the
request, the response and the matched pattern string, and stop; when no
entry matches, fall through to `Err("Route not found")` with the response
untouched. -/
def handleEntries : List (HTTPRoute × HTTPHandler) → HTTPMethod → HTTPRequest →
    HTTPResponse → Except String Unit × HTTPResponse
  | [], _, _, response => (.error "Route not found", response)
  | ((routeMethod, routePath), handler) :: rest, method, request, response =>
    if routeMethod = method then
      if (request.path_params routePath).isSome then
        (.ok (), handler request response routePath)
      else handleEntries rest method request response
    else handleEntries rest method request response

/-- Models `Router::handle` (router.rs:58-68).  The pair returned models
`(return value, final state of the &mut response)`. -/
def Router.handle (r : Router) (method : HTTPMethod) (request : HTTPRequest)
    (response : HTTPResponse) : Except String Unit × HTTPResponse :=
  handleEntries r.routes method request response

/-- Models `handle_connection` (src/httpserver.rs:42-63) from the point
where the request bytes are in hand: parse (a parse panic aborts the task,
writing nothing — the `.error` branch), then dispatch against a default
response; a dispatch error is answered with
`HTTPResponse::error(InternalServerError, e)`, otherwise the handler's
response is written back. -/
def handle_connection (router : Router) (data : String) :
    Except ParsePanic HTTPResponse :=
  match parse_http_request data with
  | .error e => .error e
  | .ok req =>
    let res := HTTPResponse.default
    match router.handle req.method req res with
    | (.error e, _) => .ok (HTTPResponse.error .InternalServerError e)
    | (.ok _, res2) => .ok res2

/-- The parameter-capture step of the `match_route` segment loop: a
placeholder segment records the path segment under the placeholder name,
a literal segment records nothing. -/
def captureStep (acc : List (String × String)) (pq : String × String) :
    List (String × String) :=
  if isPlaceholder pq.1 then insertAssoc acc (placeholderName pq.1) pq.2 else acc

/-- The parameter mapping `match_route` builds for a list of
(pattern segment, path segment) pairs. -/
def capturedParams (pairs : List (String × String)) : List (String × String) :=
  pairs.foldl captureStep []

theorem lookupAssoc_insertAssoc {α β : Type} [DecidableEq α]
    (l : List (α × β)) (k : α) (v : β) :
    lookupAssoc (insertAssoc l k v) k = some v := by
  induction l with
  | nil => simp [insertAssoc, lookupAssoc]
  | cons hd tl ih =>
    obtain ⟨k', v'⟩ := hd
    by_cases h : k' = k
    · simp [insertAssoc, lookupAssoc, h]
    · simp [insertAssoc, lookupAssoc, h, ih]

theorem splitOnceList_eq_none {c : Char} : ∀ l : List Char, c ∉ l →
    splitOnceList c l = none := by
  intro l
  induction l with
  | nil => intro _; rfl
  | cons x t ih =>
    intro h
    have hx : ¬x = c := fun hh => h (hh ▸ List.mem_cons_self x t)
    have ht : c ∉ t := fun hh => h (List.mem_cons_of_mem x hh)
    simp [splitOnceList, hx, ih ht]

theorem matchSegs_isSome_iff (l : List (String × String)) : ∀ params,
    ((matchSegs l params).isSome = true ↔
      ∀ pq ∈ l, isPlaceholder pq.1 = true ∨ pq.1 = pq.2) := by
  induction l with
  | nil => intro params; simp [matchSegs]
  | cons hd tl ih =>
    intro params
    obtain ⟨pat, p⟩ := hd
    cases hp : isPlaceholder pat with
    | true => simp [matchSegs, hp, ih]
    | false =>
      by_cases hpe : pat = p
      · subst hpe; simp [matchSegs, hp, ih]
      · simp [matchSegs, hp, hpe]

theorem matchSegs_eq_some (l : List (String × String)) : ∀ params m,
    matchSegs l params = some m → m = l.foldl captureStep params := by
  induction l with
  | nil =>
    intro params m h
    simp [matchSegs] at h
    simp [h]
  | cons hd tl ih =>
    intro params m h
    obtain ⟨pat, p⟩ := hd
    cases hp : isPlaceholder pat with
    | true =>
      simp [matchSegs, hp] at h
      simpa [captureStep, hp] using ih _ _ h
    | false =>
      by_cases hpe : pat = p
      · subst hpe
        simp [matchSegs, hp] at h
        simpa [captureStep, hp] using ih _ _ h
      · simp [matchSegs, hp, hpe] at h

theorem fst_eq_snd_of_mem_zip_self {α : Type} {l : List α} {pq : α × α}
    (h : pq ∈ l.zip l) : pq.1 = pq.2 := by
  induction l with
  | nil => simp [List.zip] at h
  | cons a t ih =>
    rw [List.zip_cons_cons] at h
    rcases List.mem_cons.mp h with h1 | h2
    · rw [h1]
    · exact ih h2

theorem handleEntries_no_match (entries : List (HTTPRoute × HTTPHandler))
    (method : HTTPMethod) (request : HTTPRequest) :
    ∀ response : HTTPResponse,
    (∀ e ∈ entries, ¬(e.1.1 = method ∧ (request.path_params e.1.2).isSome = true)) →
    handleEntries entries method request response =
      (.error "Route not found", response) := by
  induction entries with
  | nil => intro response _; rfl
  | cons e tl ih =>
    intro response h
    obtain ⟨⟨rm, rp⟩, hdl⟩ := e
    have he := h _ (List.mem_cons_self _ _)
    have htl := fun e' he' => h e' (List.mem_cons_of_mem _ he')
    by_cases hm : rm = method
    · have hps : ¬((request.path_params rp).isSome = true) :=
        fun hs => he ⟨hm, hs⟩
      simp only [handleEntries, if_pos hm, if_neg hps]
      exact ih response htl
    · simp only [handleEntries, if_neg hm]
      exact ih response htl

/-- C1: the spec says a request line with fewer than three space-separated
tokens fails parsing with a `MalformedRequestLine` parse error and no
crash.  The code has no such error: it indeed produces no request object,
but by panicking (an `unwrap` failure — here the `head[2]` indexing panic
on the two-token request line `"GET /x"`), so the graceful-failure part of
the claim names behavior the code does not have. -/
theorem C1_short_request_line_panics :
    (∀ data : String, (requestLineTokens data).length < 3 →
      ∀ req : HTTPRequest, parse_http_request data ≠ .ok req)
  ∧ parse_http_request "GET /x\r\n\r\n" =
      .error (.headIndexOutOfBounds 2) := by
  refine ⟨?_, by decide⟩
  intro data hlen req
  rcases htoks : requestLineTokens data with _ | ⟨m0, _ | ⟨u, _ | ⟨v, rest⟩⟩⟩
  · simp [parse_http_request, htoks]
  · cases hfs : HTTPMethod.fromStr m0 <;> simp [parse_http_request, htoks, hfs]
  · cases hfs : HTTPMethod.fromStr m0 <;> simp [parse_http_request, htoks, hfs]
  · rw [htoks] at hlen
    simp [List.length_cons] at hlen
    omega

/-- Witness for C1: the general part applied to the concrete two-token
request line. -/
theorem C1_short_request_line_panics_witness :
    parse_http_request "GET /x\r\n\r\n" ≠
      .ok { method := .GET, url := "/x", version := .HTTP1_1,
            headers := [], body := none } :=
  C1_short_request_line_panics.1 "GET /x\r\n\r\n" (by decide) _

/-- C2 counterexample: the claim quantifies over every first token that is
not literally one of `GET`, `POST`, `PATCH`, `DELETE` and asserts parsing
fails, but the code uppercases the token first, so the request line
`"get /x HTTP/1.1"` — whose first token is none of the four — parses
successfully. -/
theorem C2_lowercase_method_token_accepted :
    ("get" ∉ (["GET", "POST", "PATCH", "DELETE"] : List String))
  ∧ requestLineTokens "get /x HTTP/1.1\r\n\r\n" = ["get", "/x", "HTTP/1.1"]
  ∧ parse_http_request "get /x HTTP/1.1\r\n\r\n" =
      .ok { method := .GET, url := "/x", version := .HTTP1_1,
            headers := [], body := none } := by
  refine ⟨by decide, by decide, by decide⟩

/-- C2 amended: for every input whose request line has three tokens and
whose first token does not uppercase to one of `GET`, `POST`, `PATCH`,
`DELETE`, parsing fails with the invalid-method error (the `unwrap` panic
carrying `Invalid HTTP method: <token>`) and no request object is
produced. -/
theorem C2_unsupported_method_fails (data m0 : String) (rest : List String)
    (htoks : requestLineTokens data = m0 :: rest)
    (_hlen : rest.length = 2)
    (hm : toUppercase m0 ∉ (["GET", "POST", "PATCH", "DELETE"] : List String)) :
    parse_http_request data =
      .error (.invalidMethod ("Invalid HTTP method: " ++ m0)) := by
  have h1 : toUppercase m0 ≠ "GET" := fun h => hm (by rw [h]; simp)
  have h2 : toUppercase m0 ≠ "POST" := fun h => hm (by rw [h]; simp)
  have h3 : toUppercase m0 ≠ "PATCH" := fun h => hm (by rw [h]; simp)
  have h4 : toUppercase m0 ≠ "DELETE" := fun h => hm (by rw [h]; simp)
  have hfs : HTTPMethod.fromStr m0 = .error ("Invalid HTTP method: " ++ m0) := by
    simp [HTTPMethod.fromStr, h1, h2, h3, h4]
  simp [parse_http_request, htoks, hfs]

/-- Witness for the amended C2 at the spec's own example request line
`"FOO /x HTTP/1.1"`. -/
theorem C2_unsupported_method_fails_witness :
    parse_http_request "FOO /x HTTP/1.1\r\n\r\n" =
      .error (.invalidMethod "Invalid HTTP method: FOO") :=
  C2_unsupported_method_fails "FOO /x HTTP/1.1\r\n\r\n" "FOO"
    ["/x", "HTTP/1.1"] (by decide) (by decide) (by decide)

/-- C3: the claim (and the spec's propagation policy) require a 404-class
response when dispatch finds no route, but `handle_connection`
(httpserver.rs:55-59) answers a dispatch error with
`HTTPResponse::error(HTTPStatus::InternalServerError, e)`, a 500-class
response: dispatching `GET /nope` against an empty router yields status
`InternalServerError`, whose code is 500. -/
theorem C3_route_not_found_answered_with_500 :
    handle_connection Router.new "GET /nope HTTP/1.1\r\n\r\n" =
      .ok (HTTPResponse.error .InternalServerError "Route not found")
  ∧ HTTPStatus.code .InternalServerError = 500
  ∧ HTTPStatus.code .NotFound = 404 := by
  refine ⟨by decide, by decide, by decide⟩

/-- C4: the claim says header-name parsing is case-insensitive for every
variant including `Other`, but `HTTPHeaderType::from_str` puts the
original, case-preserved string into `Other`, so the two names
`"X-Custom"` and `"x-custom"` — equal up to ASCII case — parse to
different keys, and a lookup under one misses a header stored under the
other. -/
theorem C4_other_header_names_stay_case_sensitive :
    HTTPHeaderType.fromStr "X-Custom" = .Other "X-Custom"
  ∧ HTTPHeaderType.fromStr "x-custom" = .Other "x-custom"
  ∧ toAsciiLowercase "X-Custom" = toAsciiLowercase "x-custom"
  ∧ HTTPHeaderType.fromStr "X-Custom" ≠ HTTPHeaderType.fromStr "x-custom"
  ∧ parse_http_request "GET / HTTP/1.1\r\nX-Custom: a\r\n\r\n" =
      .ok { method := .GET, url := "/", version := .HTTP1_1,
            headers := [(.Other "X-Custom", "a")], body := none }
  ∧ lookupAssoc [((HTTPHeaderType.Other "X-Custom"), "a")]
      (HTTPHeaderType.Other "x-custom") = none := by
  refine ⟨by decide, by decide, by decide, by decide, by decide, by decide⟩

/-- C5 counterexample: the claim says a placeholder matches any single
non-empty path segment, but the segment loop never checks for emptiness:
`match_route "/a/{x}/b" "/a//b"` succeeds and captures the empty string
under `x`, where the claim requires no-match. -/
theorem C5_placeholder_matches_empty_segment :
    routeSegs "/a//b" = ["a", "", "b"]
  ∧ match_route "/a/{x}/b" "/a//b" = some [("x", "")] := by
  refine ⟨by decide, by decide⟩

/-- C5 amended: `match_route` strips leading/trailing `/` from pattern and
path, splits both on `/`, returns no-match when the segment counts differ,
and otherwise succeeds iff every pattern segment is either a `{}`-wrapped
placeholder — matching any single path segment, an empty one included —
or equal to its path segment; on success the result is exactly the
captured placeholder mapping (segments captured verbatim, no validation).
In particular `match_route "/posts/{id}" "/posts/42" = {id ↦ 42}` and
`match_route "/users" "/users"` is the empty mapping, distinct from
no-match. -/
theorem C5_route_match_characterization (pattern path : String) :
    ((routeSegs pattern).length ≠ (routeSegs path).length →
      match_route pattern path = none)
  ∧ ((match_route pattern path).isSome = true ↔
      ((routeSegs pattern).length = (routeSegs path).length ∧
        ∀ pq ∈ (routeSegs pattern).zip (routeSegs path),
          isPlaceholder pq.1 = true ∨ pq.1 = pq.2))
  ∧ (∀ m, match_route pattern path = some m →
      m = capturedParams ((routeSegs pattern).zip (routeSegs path)))
  ∧ match_route "/posts/{id}" "/posts/42" = some [("id", "42")]
  ∧ match_route "/users" "/users" = some [] := by
  refine ⟨?_, ?_, ?_, by decide, by decide⟩
  · intro h
    simp [match_route, h]
  · by_cases h : (routeSegs pattern).length = (routeSegs path).length
    · simp [match_route, h, matchSegs_isSome_iff]
    · simp [match_route, h]
  · intro m hm
    by_cases h : (routeSegs pattern).length = (routeSegs path).length
    · simp [match_route, h] at hm
      simpa [capturedParams] using matchSegs_eq_some _ _ _ hm
    · simp [match_route, h] at hm

/-- Witness for the amended C5: the segment-count conjunct applied to a
pattern/path pair of different lengths. -/
theorem C5_route_match_characterization_witness :
    match_route "/posts/{id}" "/posts/42/extra" = none :=
  (C5_route_match_characterization "/posts/{id}" "/posts/42/extra").1 (by decide)

/-- C6: `query_params` takes everything after the first `?` of the target,
splits it on `&`, splits each piece at its first `=` into a key/value pair
(pieces without `=` silently dropped, the later of duplicate keys
winning), and a target without `?` yields the empty mapping; in particular
`query_params "/users?name=bob&age=10" = {name ↦ bob, age ↦ 10}` and
`query_params "/test" = {}`. -/
theorem C6_query_params_behavior :
    (∀ url : String, '?' ∉ url.toList → query_params url = [])
  ∧ query_params "/users?name=bob&age=10" = [("name", "bob"), ("age", "10")]
  ∧ query_params "/test" = []
  ∧ query_params "/a?x=1&x=2" = [("x", "2")]
  ∧ query_params "/a?flag&x=1" = [("x", "1")]
  ∧ query_params "/a?x=1=2" = [("x", "1=2")]
  ∧ query_params "/a?x=1?y=2" = [("x", "1?y=2")] := by
  refine ⟨?_, by decide, by decide, by decide, by decide, by decide, by decide⟩
  intro url h
  have hn : splitOnceList '?' url.data = none := splitOnceList_eq_none _ h
  simp [query_params, splitOnce, hn]

/-- Witness for C6: the no-`?` conjunct applied to a concrete target. -/
theorem C6_query_params_behavior_witness : query_params "/plain" = [] :=
  C6_query_params_behavior.1 "/plain" (by decide)

/-- C7: when no registered entry matches the request — no entry has both
the request's method and a pattern its path matches — dispatch returns
`Err("Route not found")` and invokes no handler, leaving the response
exactly as it was. -/
theorem C7_no_match_returns_route_not_found (router : Router)
    (method : HTTPMethod) (request : HTTPRequest) (response : HTTPResponse)
    (h : ∀ e ∈ router.routes,
      ¬(e.1.1 = method ∧ (request.path_params e.1.2).isSome = true)) :
    router.handle method request response =
      (.error "Route not found", response) :=
  handleEntries_no_match router.routes method request response h

/-- Witness for C7: a router with one bound handler and a request whose
path matches no pattern. -/
theorem C7_no_match_returns_route_not_found_witness :
    (Router.new.bind (.GET, "/x")
        (fun _ res _ => { res with body := some "hit" })).handle .GET
      { method := .GET, url := "/nope", version := .HTTP1_1,
        headers := [], body := none }
      HTTPResponse.default =
    (.error "Route not found", HTTPResponse.default) := by
  refine C7_no_match_returns_route_not_found _ _ _ _ ?_
  intro e he
  rcases List.mem_singleton.mp he with rfl
  intro hc
  exact absurd hc.2 (by decide)

/-- C8: `bind` is last-write-wins: rebinding an already-bound
(method, pattern) key replaces the prior handler with no error, so after
binding `(GET, "/x")` twice only the second handler is reachable — a
lookup of the key finds the second handler, and dispatching a `GET`
request for `/x` invokes it. -/
theorem C8_bind_last_write_wins :
    (∀ (r : Router) (route : HTTPRoute) (h1 h2 : HTTPHandler),
      lookupAssoc ((r.bind route h1).bind route h2).routes route = some h2)
  ∧ (∀ (h1 h2 : HTTPHandler) (request : HTTPRequest) (response : HTTPResponse),
      request.url = "/x" →
      ((Router.new.bind (.GET, "/x") h1).bind (.GET, "/x") h2).handle .GET
          request response =
        (.ok (), h2 request response "/x")) := by
  constructor
  · intro r route h1 h2
    simp [Router.bind, lookupAssoc_insertAssoc]
  · intro h1 h2 request response hurl
    have hps : request.path_params "/x" = some [] := by
      unfold HTTPRequest.path_params
      rw [hurl]
      decide
    simp [Router.new, Router.bind, insertAssoc, Router.handle, handleEntries, hps]

/-- Witness for C8: rebinding with two concrete handlers and dispatching a
concrete request reaches only the second handler. -/
theorem C8_bind_last_write_wins_witness :
    ((Router.new.bind (.GET, "/x") (fun _ res _ => { res with body := some "one" })).bind
        (.GET, "/x") (fun _ res _ => { res with body := some "two" })).handle .GET
      { method := .GET, url := "/x", version := .HTTP1_1,
        headers := [], body := none }
      HTTPResponse.default =
    (.ok (), { status := .Ok, headers := [], body := some "two" }) :=
  C8_bind_last_write_wins.2
    (fun _ res _ => { res with body := some "one" })
    (fun _ res _ => { res with body := some "two" })
    { method := .GET, url := "/x", version := .HTTP1_1,
      headers := [], body := none }
    HTTPResponse.default rfl

/-- C9: method parsing is case-insensitive — `HTTPMethod::from_str s`
succeeds exactly when uppercasing `s` lands in the closed method set
(`toUppercase` is ASCII uppercasing, which on the ASCII token strings of
this parser agrees with Rust's `str::to_uppercase`); in particular both
`"get"` and `"Get"` parse to `GET`. -/
theorem C9_method_parsing_case_insensitive :
    (∀ s : String, (HTTPMethod.fromStr s).isOk = true ↔
      toUppercase s ∈ (["GET", "POST", "PATCH", "DELETE"] : List String))
  ∧ HTTPMethod.fromStr "get" = .ok .GET
  ∧ HTTPMethod.fromStr "Get" = .ok .GET := by
  refine ⟨?_, by decide, by decide⟩
  intro s
  simp only [HTTPMethod.fromStr]
  split_ifs with h1 h2 h3 h4 <;> simp_all [Except.isOk, Except.toBool]

/-- Witness for C9: the equivalence applied to the mixed-case token
`"dElEtE"`. -/
theorem C9_method_parsing_case_insensitive_witness :
    (HTTPMethod.fromStr "dElEtE").isOk = true :=
  (C9_method_parsing_case_insensitive.1 "dElEtE").mpr (by decide)

/-- C10: route matching is reflexive — matching any string against itself
succeeds, because each segment either equals itself or is a placeholder
capturing itself. -/
theorem C10_match_route_reflexive (s : String) :
    (match_route s s).isSome = true := by
  simp only [match_route, ne_eq, not_true_eq_false, if_false, ite_not]
  rw [matchSegs_isSome_iff]
  intro pq hpq
  exact Or.inr (fst_eq_snd_of_mem_zip_self hpq)

end Net
